import Mathlib

/-!
Shallow embedding of `src/electron/LLMHelper.ts` (the provider gateway of the
interview-helper-ai repository).

The TypeScript class `LLMHelper` holds four mutable fields (`model`,
`useOllama`, `ollamaModel`, `ollamaUrl`).  Every method is embedded as a pure
Lean function from the gateway state (and the outcomes of the network calls
the method may issue, supplied as explicit parameters) to its result, the
post-call state, and the trace of network requests actually issued.  A
`fetch` call either yields a parsed body, an HTTP error response
(`response.ok` false), or throws (network error); `await model.generateContent`
on the Gemini SDK either yields the response text or throws.  Thrown JS errors
are embedded as `Except.error` carrying the message string; `try`/`catch`
blocks of the source become matches on those `Except` values.
-/

namespace LLM

/-- One outbound network request, recorded so that theorems can speak about
which backend calls an operation issues (and how many). -/
inductive NetCall where
  | getTags (url : String)
  | postGenerate (url : String) (model : String) (prompt : String)
  | geminiGenerate
  deriving DecidableEq, Repr

/-- Outcome of a JS `fetch`: a parsed `.ok` response body, a received response
with `response.ok = false` (status and statusText), or a thrown network
error. -/
inductive FetchOutcome (α : Type) where
  | success (body : α)
  | httpError (status : Nat) (statusText : String)
  | networkError (message : String)
  deriving DecidableEq, Repr

/-- Whether the fetch produced an `.ok` response with a parsed body. -/
def FetchOutcome.isSuccess : FetchOutcome α → Bool
  | .success _ => true
  | _ => false

/-- One entry of the `/api/tags` response's `models` array (only the `name`
field is read by the source: `data.models?.map((model) => model.name)`). -/
structure OllamaModelEntry where
  name : String
  deriving DecidableEq, Repr

/-- Body of a `/api/tags` response: `models` may be absent
(`data.models?` in the source). -/
structure OllamaTags where
  models : Option (List OllamaModelEntry)
  deriving DecidableEq, Repr

/-- `interface OllamaResponse` of the source: body of an `/api/generate`
response. -/
structure OllamaResponse where
  response : String
  done : Bool
  deriving DecidableEq, Repr

/-- The mutable fields of class `LLMHelper`.  `model` is the Gemini
`GenerativeModel` handle, embedded as the model identifier it was created
with (`none` = the field is `null`). -/
structure LLMHelper where
  model : Option String
  useOllama : Bool
  ollamaModel : String
  ollamaUrl : String
  deriving DecidableEq, Repr

/-- Result record of `testConnection`: `{ success: boolean; error?: string }`. -/
structure TestResult where
  success : Bool
  error : Option String
  deriving DecidableEq, Repr

/-- `{ text, timestamp }` returned by the generation methods. -/
structure GenerationResult where
  text : String
  timestamp : Nat
  deriving DecidableEq, Repr

/-- JS truthiness of an optional string argument: `undefined` and `""` are
falsy (the source guards `apiKey`, `model`, `url` with bare `if (x)`). -/
def tsTruthy : Option String → Bool
  | some s => !s.isEmpty
  | none => false

/-- JS `x || d` for an optional string: the default replaces `undefined` and
`""`. -/
def orDefault (v : Option String) (d : String) : String :=
  match v with
  | some s => if s.isEmpty then d else s
  | none => d

/-- Message of the JS `TypeError` raised when a method dereferences
`this.model` while the field is `null` (the multimodal methods call
`this.model.generateContent` without a null check). -/
def nullModelError : String :=
  "Cannot read properties of null (reading 'generateContent')"

/-- `callOllama(prompt)` (source lines 67-95): POST `/api/generate`; a non-ok
response throws `Ollama API error: ...` inside the `try`, and the `catch`
rethrows every failure as `Failed to connect to Ollama: <message>. Make sure
Ollama is running on <url>`. Returns `data.response` on success.  The state is
not modified; the issued request is returned as the trace. -/
def callOllama (st : LLMHelper) (prompt : String)
    (gen : FetchOutcome OllamaResponse) : Except String String × List NetCall :=
  let trace := [NetCall.postGenerate st.ollamaUrl st.ollamaModel prompt]
  match gen with
  | .success data => (.ok data.response, trace)
  | .httpError status statusText =>
      (.error ("Failed to connect to Ollama: Ollama API error: "
        ++ toString status ++ " " ++ statusText
        ++ ". Make sure Ollama is running on " ++ st.ollamaUrl), trace)
  | .networkError msg =>
      (.error ("Failed to connect to Ollama: " ++ msg
        ++ ". Make sure Ollama is running on " ++ st.ollamaUrl), trace)

/-- `checkOllamaAvailable()` (source lines 97-104): GET `/api/tags`, return
`response.ok`; a thrown fetch is caught and yields `false`. -/
def checkOllamaAvailable (st : LLMHelper) (tags : FetchOutcome OllamaTags) :
    Bool × List NetCall :=
  (match tags with
    | .success _ => true
    | .httpError _ _ => false
    | .networkError _ => false,
   [NetCall.getTags st.ollamaUrl])

/-- Body of the `try` block of `getOllamaModels` (source lines 308-313):
a non-ok response throws `Failed to fetch models`; otherwise
`data.models?.map((model) => model.name) || []`. -/
def getOllamaModelsTry (tags : FetchOutcome OllamaTags) :
    Except String (List String) :=
  match tags with
  | .success data => .ok ((data.models.map (fun l => l.map OllamaModelEntry.name)).getD [])
  | .httpError _ _ => .error "Failed to fetch models"
  | .networkError msg => .error msg

/-- `getOllamaModels()` (source lines 305-318): returns `[]` immediately when
`useOllama` is false (no fetch); otherwise fetches `/api/tags`, and the
`catch` turns any failure into `[]`.  No field is assigned. -/
def getOllamaModels (st : LLMHelper) (tags : FetchOutcome OllamaTags) :
    List String × LLMHelper × List NetCall :=
  if !st.useOllama then ([], st, [])
  else
    match getOllamaModelsTry tags with
    | .ok names => (names, st, [NetCall.getTags st.ollamaUrl])
    | .error _ => ([], st, [NetCall.getTags st.ollamaUrl])

/-- The model names a `/api/tags` outcome yields through `getOllamaModels`
when the gateway is in Ollama mode (helper for stating theorems). -/
def tagsModelNames (tags : FetchOutcome OllamaTags) : List String :=
  match tags with
  | .success data => (data.models.map (fun l => l.map OllamaModelEntry.name)).getD []
  | .httpError _ _ => []
  | .networkError _ => []

/-- `initializeOllamaModel()` (source lines 106-136).  The `try` block fetches
the installed models (`tags1`), returns early when none are found, substitutes
the first entry when the configured model is not `include`d in the list, and
issues a test `callOllama("Hello")` (`gen`).  When that throws, the `catch`
fetches a fresh list (`tags2`) and, when it is non-empty, substitutes its
first entry; a failure of that fallback is swallowed. -/
def initializeOllamaModel (st : LLMHelper) (tags1 : FetchOutcome OllamaTags)
    (gen : FetchOutcome OllamaResponse) (tags2 : FetchOutcome OllamaTags) :
    LLMHelper × List NetCall :=
  let fetched := getOllamaModels st tags1
  let availableModels := fetched.1
  let t1 := fetched.2.2
  match availableModels with
  | [] => (st, t1)
  | first :: rest =>
    let st1 := if st.ollamaModel ∈ first :: rest then st
               else { st with ollamaModel := first }
    match callOllama st1 "Hello" gen with
    | (.ok _, tGen) => (st1, t1 ++ tGen)
    | (.error _, tGen) =>
      let fresh := getOllamaModels st1 tags2
      match fresh.1 with
      | [] => (st1, t1 ++ tGen ++ fresh.2.2)
      | m :: _ => ({ st1 with ollamaModel := m }, t1 ++ tGen ++ fresh.2.2)

/-- The constructor (source lines 30-47).  In Ollama mode it applies the
`||` defaults and runs `initializeOllamaModel` (whose failures are all caught
internally, so construction itself succeeds); otherwise a truthy `apiKey`
creates the Gemini model handle, and with neither it throws
`Either provide Gemini API key or enable Ollama mode`. -/
def construct (apiKey : Option String) (useOllama : Bool)
    (ollamaModel : Option String) (ollamaUrl : Option String)
    (tags1 : FetchOutcome OllamaTags) (gen : FetchOutcome OllamaResponse)
    (tags2 : FetchOutcome OllamaTags) :
    Except String (LLMHelper × List NetCall) :=
  let st0 : LLMHelper :=
    { model := none, useOllama := useOllama,
      ollamaModel := "llama3.2", ollamaUrl := "http://localhost:11434" }
  if useOllama then
    let st1 := { st0 with
      ollamaUrl := orDefault ollamaUrl "http://localhost:11434",
      ollamaModel := orDefault ollamaModel "gemma:latest" }
    .ok (initializeOllamaModel st1 tags1 gen tags2)
  else if tsTruthy apiKey then
    .ok ({ st0 with model := some "gemini-2.0-flash" }, [])
  else
    .error "Either provide Gemini API key or enable Ollama mode"

/-- `extractProblemFromImages(imagePaths)` (source lines 139-156): reads the
image files (file I/O is abstracted as succeeding; the bytes only feed the
prompt) and calls `this.model.generateContent` with no check of the provider
mode — `null` yields the JS `TypeError`.  Errors are logged and rethrown. -/
def extractProblemFromImages (st : LLMHelper) (imagePaths : List String)
    (now : Nat) (gemini : Except String String) :
    Except String GenerationResult × LLMHelper × List NetCall :=
  match st.model with
  | none => (.error nullModelError, st, [])
  | some _ =>
    match gemini with
    | .ok text => (.ok ⟨text, now⟩, st, [NetCall.geminiGenerate])
    | .error msg => (.error msg, st, [NetCall.geminiGenerate])

/-- `generateSolution(problemInfo)` (source lines 159-179): builds the prompt
from the JSON-serialized `problemInfo` and calls `this.model.generateContent`
(no provider-mode check; `null` yields the JS `TypeError`).  On success
returns `{ text, timestamp: Date.now() }`; errors are rethrown. -/
def generateSolution (st : LLMHelper) (problemInfo : String) (now : Nat)
    (gemini : Except String String) :
    Except String GenerationResult × LLMHelper × List NetCall :=
  match st.model with
  | none => (.error nullModelError, st, [])
  | some _ =>
    match gemini with
    | .ok text => (.ok ⟨text, now⟩, st, [NetCall.geminiGenerate])
    | .error msg => (.error msg, st, [NetCall.geminiGenerate])

/-- `analyzeAudioFile(audioPath)` (source lines 207-229): reads the audio file
(file I/O abstracted as succeeding) and calls `this.model.generateContent`;
same shape as the image path. -/
def analyzeAudioFile (st : LLMHelper) (audioPath : String) (now : Nat)
    (gemini : Except String String) :
    Except String GenerationResult × LLMHelper × List NetCall :=
  match st.model with
  | none => (.error nullModelError, st, [])
  | some _ =>
    match gemini with
    | .ok text => (.ok ⟨text, now⟩, st, [NetCall.geminiGenerate])
    | .error msg => (.error msg, st, [NetCall.geminiGenerate])

/-- `analyzeAudioFromBase64(data, mimeType)` (source lines 232-253): same
shape, the attachment comes in as base64 data. -/
def analyzeAudioFromBase64 (st : LLMHelper) (data mimeType : String)
    (now : Nat) (gemini : Except String String) :
    Except String GenerationResult × LLMHelper × List NetCall :=
  match st.model with
  | none => (.error nullModelError, st, [])
  | some _ =>
    match gemini with
    | .ok text => (.ok ⟨text, now⟩, st, [NetCall.geminiGenerate])
    | .error msg => (.error msg, st, [NetCall.geminiGenerate])

/-- `chatWithGemini(message)` (source lines 280-295): Ollama mode forwards to
`callOllama(message)`; otherwise a present `this.model` serves the message and
a `null` one throws `No LLM provider configured`.  The `catch` logs and
rethrows the same error.  No field is assigned. -/
def chatWithGemini (st : LLMHelper) (message : String)
    (gen : FetchOutcome OllamaResponse) (gemini : Except String String) :
    Except String String × LLMHelper × List NetCall :=
  if st.useOllama then
    let r := callOllama st message gen
    (r.1, st, r.2)
  else
    match st.model with
    | some _ =>
      match gemini with
      | .ok text => (.ok text, st, [NetCall.geminiGenerate])
      | .error msg => (.error msg, st, [NetCall.geminiGenerate])
    | none => (.error "No LLM provider configured", st, [])

/-- `chat(message)` (source lines 297-299): delegates to `chatWithGemini`. -/
def chat (st : LLMHelper) (message : String)
    (gen : FetchOutcome OllamaResponse) (gemini : Except String String) :
    Except String String × LLMHelper × List NetCall :=
  chatWithGemini st message gen gemini

/-- `isUsingOllama()` (source lines 301-303). -/
def isUsingOllama (st : LLMHelper) : Bool × LLMHelper :=
  (st.useOllama, st)

/-- `getCurrentProvider()` (source lines 320-322). -/
def getCurrentProvider (st : LLMHelper) : String × LLMHelper :=
  ((if st.useOllama then "ollama" else "gemini"), st)

/-- `getCurrentModel()` (source lines 324-326). -/
def getCurrentModel (st : LLMHelper) : String × LLMHelper :=
  ((if st.useOllama then st.ollamaModel else "gemini-2.0-flash"), st)

/-- `switchToOllama(model?, url?)` (source lines 328-340): sets
`useOllama := true`, adopts a truthy `url`, adopts a truthy `model`, and with
no (truthy) model runs `initializeOllamaModel` to auto-detect one. -/
def switchToOllama (st : LLMHelper) (model url : Option String)
    (tags1 : FetchOutcome OllamaTags) (gen : FetchOutcome OllamaResponse)
    (tags2 : FetchOutcome OllamaTags) : LLMHelper × List NetCall :=
  let st1 := { st with useOllama := true }
  let st2 := match url with
    | some u => if u.isEmpty then st1 else { st1 with ollamaUrl := u }
    | none => st1
  match model with
  | some m =>
    if m.isEmpty then initializeOllamaModel st2 tags1 gen tags2
    else ({ st2 with ollamaModel := m }, [])
  | none => initializeOllamaModel st2 tags1 gen tags2

/-- `switchToGemini(apiKey?)` (source lines 342-354): a truthy `apiKey`
creates a fresh model handle; then `if (!this.model && !apiKey)` throws
`No Gemini API key provided and no existing model instance`; otherwise
`useOllama := false`. -/
def switchToGemini (st : LLMHelper) (apiKey : Option String) :
    Except String LLMHelper :=
  let st1 := if tsTruthy apiKey then { st with model := some "gemini-2.0-flash" }
             else st
  if st1.model.isNone && !tsTruthy apiKey then
    .error "No Gemini API key provided and no existing model instance"
  else
    .ok { st1 with useOllama := false }

/-- `testConnection()` (source lines 356-383).  Ollama mode: an unavailable
server yields `{ success: false, error: "Ollama not available at <url>" }`;
otherwise `callOllama("Hello")` is issued, whose thrown error the outer
`catch` converts into `{ success: false, error: error.message }`.  Gemini
mode: a `null` model yields `No Gemini model configured`; a falsy (empty)
response text yields `Empty response from Gemini`; a thrown call is converted
by the same `catch`.  The outer `catch` is folded into the error branches, so
the embedding returns a `TestResult` on every path.  No field is assigned. -/
def testConnection (st : LLMHelper) (tags : FetchOutcome OllamaTags)
    (gen : FetchOutcome OllamaResponse) (gemini : Except String String) :
    TestResult × LLMHelper × List NetCall :=
  if st.useOllama then
    let avail := checkOllamaAvailable st tags
    if avail.1 then
      match callOllama st "Hello" gen with
      | (.ok _, t2) => (⟨true, none⟩, st, avail.2 ++ t2)
      | (.error msg, t2) => (⟨false, some msg⟩, st, avail.2 ++ t2)
    else
      (⟨false, some ("Ollama not available at " ++ st.ollamaUrl)⟩, st, avail.2)
  else
    match st.model with
    | none => (⟨false, some "No Gemini model configured"⟩, st, [])
    | some _ =>
      match gemini with
      | .ok text =>
        if text.isEmpty then
          (⟨false, some "Empty response from Gemini"⟩, st, [NetCall.geminiGenerate])
        else (⟨true, none⟩, st, [NetCall.geminiGenerate])
      | .error msg => (⟨false, some msg⟩, st, [NetCall.geminiGenerate])

/-! ## Theorems about the gateway -/

/-- Claim C10: in cloud mode (`useOllama = false`) `getOllamaModels` returns
the empty list immediately, leaves the state unchanged and issues no network
request at all, whatever the local server would have answered. -/
theorem getOllamaModels_cloud_mode_empty_no_contact
    (st : LLMHelper) (tags : FetchOutcome OllamaTags)
    (h : st.useOllama = false) :
    getOllamaModels st tags = ([], st, []) := by
  simp [getOllamaModels, h]

/-- Witness for C10: a concrete cloud-mode gateway, with the server reachable
and reporting two installed models, still gets the empty list and no request. -/
theorem getOllamaModels_cloud_mode_empty_no_contact_witness :
    getOllamaModels
      ⟨some "gemini-2.0-flash", false, "llama3.2", "http://localhost:11434"⟩
      (.success ⟨some [⟨"llama3.2"⟩, ⟨"mistral"⟩]⟩)
      = ([], ⟨some "gemini-2.0-flash", false, "llama3.2", "http://localhost:11434"⟩, []) :=
  getOllamaModels_cloud_mode_empty_no_contact
    ⟨some "gemini-2.0-flash", false, "llama3.2", "http://localhost:11434"⟩
    (.success ⟨some [⟨"llama3.2"⟩, ⟨"mistral"⟩]⟩) rfl

/-- Claim C5: whenever the `/api/tags` fetch does not produce an ok response
(unreachable server or error response), the body of `getOllamaModels`'s `try`
raises, the `catch` swallows it, and the method returns the empty list — it
never propagates the failure. -/
theorem getOllamaModels_unreachable_returns_empty
    (st : LLMHelper) (tags : FetchOutcome OllamaTags)
    (h : tags.isSuccess = false) :
    (getOllamaModels st tags).1 = [] ∧
      ∃ msg, getOllamaModelsTry tags = .error msg := by
  cases tags with
  | success body => simp [FetchOutcome.isSuccess] at h
  | httpError status statusText =>
    refine ⟨?_, "Failed to fetch models", rfl⟩
    by_cases huo : st.useOllama <;>
      simp [getOllamaModels, getOllamaModelsTry, huo]
  | networkError msg =>
    refine ⟨?_, msg, rfl⟩
    by_cases huo : st.useOllama <;>
      simp [getOllamaModels, getOllamaModelsTry, huo]

/-- Witness for C5: an Ollama-mode gateway against an unreachable server. -/
theorem getOllamaModels_unreachable_returns_empty_witness :
    (getOllamaModels ⟨none, true, "llama3.2", "http://localhost:11434"⟩
        (.networkError "ECONNREFUSED")).1 = [] ∧
      ∃ msg, getOllamaModelsTry (FetchOutcome.networkError (α := OllamaTags) "ECONNREFUSED")
        = .error msg :=
  getOllamaModels_unreachable_returns_empty
    ⟨none, true, "llama3.2", "http://localhost:11434"⟩
    (.networkError "ECONNREFUSED") rfl

/-- Claim C4: for every gateway state and every backend behaviour,
`testConnection` returns a structured result on every path (the outer `catch`
absorbs every raise): either a success carrying no error, or a failure
carrying an error string. -/
theorem testConnection_total_structured
    (st : LLMHelper) (tags : FetchOutcome OllamaTags)
    (gen : FetchOutcome OllamaResponse) (gemini : Except String String) :
    ((testConnection st tags gen gemini).1.success = true ∧
        (testConnection st tags gen gemini).1.error = none) ∨
      ((testConnection st tags gen gemini).1.success = false ∧
        ∃ e, (testConnection st tags gen gemini).1.error = some e) := by
  obtain ⟨model, useOllama, ollamaModel, ollamaUrl⟩ := st
  cases useOllama with
  | true =>
    cases tags <;> cases gen <;>
      simp [testConnection, checkOllamaAvailable, callOllama]
  | false =>
    cases model with
    | none => simp [testConnection]
    | some g =>
      cases gemini with
      | ok text =>
        by_cases h : text.isEmpty <;> simp [testConnection, h]
      | error msg => simp [testConnection]

/-- Claim C8: construction succeeds exactly when Ollama mode is enabled or a
truthy (present, non-empty) credential is supplied, and the failure is
precisely the configuration error of the source. -/
theorem construct_fails_iff_no_credential_no_local
    (apiKey : Option String) (useOllama : Bool)
    (ollamaModel ollamaUrl : Option String)
    (tags1 : FetchOutcome OllamaTags) (gen : FetchOutcome OllamaResponse)
    (tags2 : FetchOutcome OllamaTags) :
    ((construct apiKey useOllama ollamaModel ollamaUrl tags1 gen tags2).isOk = true
        ↔ (useOllama = true ∨ tsTruthy apiKey = true)) ∧
      ((construct apiKey useOllama ollamaModel ollamaUrl tags1 gen tags2)
          = .error "Either provide Gemini API key or enable Ollama mode"
        ↔ (useOllama = false ∧ tsTruthy apiKey = false)) := by
  cases useOllama with
  | true => simp [construct, Except.isOk, Except.toBool]
  | false =>
    by_cases h : tsTruthy apiKey <;>
      simp [construct, Except.isOk, Except.toBool, h]

/-- In Ollama mode, `getOllamaModels` returns exactly the names carried by the
`/api/tags` outcome and records the single GET request. -/
theorem getOllamaModels_ollama_mode (st : LLMHelper)
    (tags : FetchOutcome OllamaTags) (h : st.useOllama = true) :
    getOllamaModels st tags = (tagsModelNames tags, st, [NetCall.getTags st.ollamaUrl]) := by
  cases tags <;> simp [getOllamaModels, getOllamaModelsTry, tagsModelNames, h]

/-- `switchToOllama` with no model name delegates to `initializeOllamaModel`
on the state with `useOllama` set (and a truthy url adopted). -/
theorem switchToOllama_none_eq (st : LLMHelper) (url : Option String)
    (tags1 : FetchOutcome OllamaTags) (gen : FetchOutcome OllamaResponse)
    (tags2 : FetchOutcome OllamaTags) :
    switchToOllama st none url tags1 gen tags2
      = initializeOllamaModel
          (match url with
            | some u => if u.isEmpty then { st with useOllama := true }
                        else { st with useOllama := true, ollamaUrl := u }
            | none => { st with useOllama := true })
          tags1 gen tags2 := by
  cases url with
  | none => rfl
  | some u => by_cases h : u.isEmpty <;> simp [switchToOllama, h]

/-- `initializeOllamaModel` when the first fetch reports no installed model:
early return, state untouched, one GET issued. -/
theorem initializeOllamaModel_empty (st : LLMHelper)
    (tags1 : FetchOutcome OllamaTags) (gen : FetchOutcome OllamaResponse)
    (tags2 : FetchOutcome OllamaTags) (huo : st.useOllama = true)
    (hlist : tagsModelNames tags1 = []) :
    initializeOllamaModel st tags1 gen tags2 = (st, [NetCall.getTags st.ollamaUrl]) := by
  simp only [initializeOllamaModel, getOllamaModels_ollama_mode st tags1 huo, hlist]

/-- `initializeOllamaModel` when the first fetch lists models and the test
call succeeds: the configured model is kept when listed, otherwise the first
entry is adopted; one GET and one POST are issued, no second fetch. -/
theorem initializeOllamaModel_test_ok (st : LLMHelper)
    (tags1 : FetchOutcome OllamaTags) (d : OllamaResponse)
    (tags2 : FetchOutcome OllamaTags) (first : String) (rest : List String)
    (huo : st.useOllama = true) (hlist : tagsModelNames tags1 = first :: rest) :
    initializeOllamaModel st tags1 (.success d) tags2
      = (if st.ollamaModel ∈ first :: rest then st
         else { st with ollamaModel := first },
         [NetCall.getTags st.ollamaUrl,
          NetCall.postGenerate st.ollamaUrl
            (if st.ollamaModel ∈ first :: rest then st.ollamaModel else first)
            "Hello"]) := by
  simp only [initializeOllamaModel, getOllamaModels_ollama_mode st tags1 huo, hlist]
  by_cases hmem : st.ollamaModel ∈ first :: rest <;> simp [hmem, callOllama]

/-- `initializeOllamaModel` when the first fetch lists models and the test
call raises: exactly one further GET is issued, and the freshly fetched
list's first entry (when any) replaces the model selected before the test. -/
theorem initializeOllamaModel_test_fails (st : LLMHelper)
    (tags1 : FetchOutcome OllamaTags) (gen : FetchOutcome OllamaResponse)
    (tags2 : FetchOutcome OllamaTags) (first : String) (rest : List String)
    (huo : st.useOllama = true) (hlist : tagsModelNames tags1 = first :: rest)
    (hfail : gen.isSuccess = false) :
    initializeOllamaModel st tags1 gen tags2
      = ((match tagsModelNames tags2 with
          | [] => if st.ollamaModel ∈ first :: rest then st
                  else { st with ollamaModel := first }
          | m :: _ => { st with ollamaModel := m }),
         [NetCall.getTags st.ollamaUrl,
          NetCall.postGenerate st.ollamaUrl
            (if st.ollamaModel ∈ first :: rest then st.ollamaModel else first)
            "Hello",
          NetCall.getTags st.ollamaUrl]) := by
  simp only [initializeOllamaModel, getOllamaModels_ollama_mode st tags1 huo, hlist]
  by_cases hmem : st.ollamaModel ∈ first :: rest <;>
    cases gen with
    | success d => simp [FetchOutcome.isSuccess] at hfail
    | httpError status statusText =>
      cases htags2 : tagsModelNames tags2 with
      | nil =>
        simp [hmem, callOllama, getOllamaModels_ollama_mode, htags2, huo]
      | cons m ms =>
        simp [hmem, callOllama, getOllamaModels_ollama_mode, htags2, huo]
    | networkError msg =>
      cases htags2 : tagsModelNames tags2 with
      | nil =>
        simp [hmem, callOllama, getOllamaModels_ollama_mode, htags2, huo]
      | cons m ms =>
        simp [hmem, callOllama, getOllamaModels_ollama_mode, htags2, huo]

/-- Counterexample to claim C1: a gateway whose configured local model
(`"mistral"`) is already in the list `["llama3.2", "mistral"]` the server
returns keeps `"mistral"` after `switchToOllama()` — it does not adopt the
first entry `"llama3.2"`. -/
theorem switchToOllama_not_always_first :
    (switchToOllama ⟨none, false, "mistral", "http://localhost:11434"⟩ none none
        (.success ⟨some [⟨"llama3.2"⟩, ⟨"mistral"⟩]⟩) (.success ⟨"Hi", true⟩)
        (.success ⟨some [⟨"llama3.2"⟩, ⟨"mistral"⟩]⟩)).1.ollamaModel = "mistral"
      ∧ tagsModelNames (FetchOutcome.success ⟨some [⟨"llama3.2"⟩, ⟨"mistral"⟩]⟩)
          = ["llama3.2", "mistral"]
      ∧ ("mistral" : String) ≠ "llama3.2" := by
  refine ⟨by decide, by decide, by decide⟩

/-- The model `initializeOllamaModel` ends with, in every case: an empty
first list leaves it unchanged; otherwise the configured model is selected
when listed and the first entry when not, the selection stands when the test
call succeeds, and a failing test call replaces it with the head of the
freshly fetched list (the selection standing when that list is empty). -/
theorem initializeOllamaModel_selected_model (st : LLMHelper)
    (tags1 : FetchOutcome OllamaTags) (gen : FetchOutcome OllamaResponse)
    (tags2 : FetchOutcome OllamaTags) (huo : st.useOllama = true) :
    (tagsModelNames tags1 = [] →
      (initializeOllamaModel st tags1 gen tags2).1.ollamaModel = st.ollamaModel)
    ∧ (∀ first rest, tagsModelNames tags1 = first :: rest →
        (gen.isSuccess = true →
          (initializeOllamaModel st tags1 gen tags2).1.ollamaModel
            = (if st.ollamaModel ∈ first :: rest then st.ollamaModel else first))
        ∧ (gen.isSuccess = false →
          (tagsModelNames tags2 = [] →
            (initializeOllamaModel st tags1 gen tags2).1.ollamaModel
              = (if st.ollamaModel ∈ first :: rest then st.ollamaModel else first))
          ∧ (∀ m ms, tagsModelNames tags2 = m :: ms →
            (initializeOllamaModel st tags1 gen tags2).1.ollamaModel = m))) := by
  constructor
  · intro h
    rw [initializeOllamaModel_empty st tags1 gen tags2 huo h]
  · intro first rest hlist
    constructor
    · intro hok
      cases gen with
      | success d =>
        rw [initializeOllamaModel_test_ok st tags1 d tags2 first rest huo hlist]
        by_cases hmem : st.ollamaModel ∈ first :: rest <;> simp [hmem]
      | httpError status statusText => simp [FetchOutcome.isSuccess] at hok
      | networkError msg => simp [FetchOutcome.isSuccess] at hok
    · intro hfail
      rw [initializeOllamaModel_test_fails st tags1 gen tags2 first rest huo hlist hfail]
      constructor
      · intro h2
        by_cases hmem : st.ollamaModel ∈ first :: rest <;> simp [h2, hmem]
      · intro m ms hm
        simp [hm]

/-- Claim C1 as amended: `switchToOllama` with no explicit model name
fetches the installed-model list; an empty list leaves the active model
unchanged; otherwise the configured model is selected when it appears in the
list and the first entry is adopted when it does not, and a test call is
issued with that selection — when the test call succeeds the selection
stands, and when it fails the active model becomes the first entry of a
freshly fetched list (the selection standing when the fresh list is
empty). -/
theorem switchToOllama_auto_selection (st : LLMHelper) (url : Option String)
    (tags1 : FetchOutcome OllamaTags) (gen : FetchOutcome OllamaResponse)
    (tags2 : FetchOutcome OllamaTags) :
    (tagsModelNames tags1 = [] →
      (switchToOllama st none url tags1 gen tags2).1.ollamaModel = st.ollamaModel)
    ∧ (∀ first rest, tagsModelNames tags1 = first :: rest →
        (gen.isSuccess = true →
          (switchToOllama st none url tags1 gen tags2).1.ollamaModel
            = (if st.ollamaModel ∈ first :: rest then st.ollamaModel else first))
        ∧ (gen.isSuccess = false →
          (tagsModelNames tags2 = [] →
            (switchToOllama st none url tags1 gen tags2).1.ollamaModel
              = (if st.ollamaModel ∈ first :: rest then st.ollamaModel else first))
          ∧ (∀ m ms, tagsModelNames tags2 = m :: ms →
            (switchToOllama st none url tags1 gen tags2).1.ollamaModel = m))) := by
  rw [switchToOllama_none_eq]
  cases url with
  | none => exact initializeOllamaModel_selected_model _ tags1 gen tags2 rfl
  | some u =>
    by_cases hu : u.isEmpty <;> simp only [hu, reduceIte] <;>
      exact initializeOllamaModel_selected_model _ tags1 gen tags2 rfl

/-- Witness for the amended C1, exercising three cases against the list
`["llama3.2", "mistral"]`: a listed configured model (`"mistral"`) is kept
when the test call succeeds; the same listed model is replaced by the fresh
list's first entry when the test call fails; an unlisted configured model
(`"qwen"`) is replaced by the first entry. -/
theorem switchToOllama_auto_selection_witness :
    (switchToOllama ⟨none, false, "mistral", "http://localhost:11434"⟩ none none
        (.success ⟨some [⟨"llama3.2"⟩, ⟨"mistral"⟩]⟩) (.success ⟨"Hi", true⟩)
        (.success ⟨some [⟨"llama3.2"⟩, ⟨"mistral"⟩]⟩)).1.ollamaModel = "mistral"
    ∧ (switchToOllama ⟨none, false, "mistral", "http://localhost:11434"⟩ none none
        (.success ⟨some [⟨"llama3.2"⟩, ⟨"mistral"⟩]⟩) (.networkError "boom")
        (.success ⟨some [⟨"llama3.2"⟩, ⟨"mistral"⟩]⟩)).1.ollamaModel = "llama3.2"
    ∧ (switchToOllama ⟨none, false, "qwen", "http://localhost:11434"⟩ none none
        (.success ⟨some [⟨"llama3.2"⟩, ⟨"mistral"⟩]⟩) (.success ⟨"Hi", true⟩)
        (.success ⟨some []⟩)).1.ollamaModel = "llama3.2" := by
  refine ⟨?_, ?_, ?_⟩
  · have h := switchToOllama_auto_selection
      ⟨none, false, "mistral", "http://localhost:11434"⟩ none
      (.success ⟨some [⟨"llama3.2"⟩, ⟨"mistral"⟩]⟩) (.success ⟨"Hi", true⟩)
      (.success ⟨some [⟨"llama3.2"⟩, ⟨"mistral"⟩]⟩)
    have h2 := (h.2 "llama3.2" ["mistral"] rfl).1 rfl
    rw [if_pos (by decide)] at h2
    exact h2
  · have h := switchToOllama_auto_selection
      ⟨none, false, "mistral", "http://localhost:11434"⟩ none
      (.success ⟨some [⟨"llama3.2"⟩, ⟨"mistral"⟩]⟩) (.networkError "boom")
      (.success ⟨some [⟨"llama3.2"⟩, ⟨"mistral"⟩]⟩)
    exact ((h.2 "llama3.2" ["mistral"] rfl).2 rfl).2 "llama3.2" ["mistral"] rfl
  · have h := switchToOllama_auto_selection
      ⟨none, false, "qwen", "http://localhost:11434"⟩ none
      (.success ⟨some [⟨"llama3.2"⟩, ⟨"mistral"⟩]⟩) (.success ⟨"Hi", true⟩)
      (.success ⟨some []⟩)
    have h2 := (h.2 "llama3.2" ["mistral"] rfl).1 rfl
    rw [if_neg (by decide)] at h2
    exact h2

/-- Claim C2: when the configured model is absent from the (stable) list the
server returns, `switchToOllama()` substitutes the first listed model as the
active model, whatever the outcome of the test call issued afterwards. -/
theorem switchToOllama_absent_model_substituted (st : LLMHelper)
    (url : Option String) (tags : FetchOutcome OllamaTags)
    (gen : FetchOutcome OllamaResponse) (first : String) (rest : List String)
    (hlist : tagsModelNames tags = first :: rest)
    (habs : st.ollamaModel ∉ first :: rest) :
    (switchToOllama st none url tags gen tags).1.ollamaModel = first := by
  rw [switchToOllama_none_eq]
  have step : ∀ st2 : LLMHelper, st2.useOllama = true →
      st2.ollamaModel = st.ollamaModel →
      (initializeOllamaModel st2 tags gen tags).1.ollamaModel = first := by
    intro st2 huo hmodel
    cases hgen : gen.isSuccess with
    | true =>
      cases gen with
      | success d =>
        rw [initializeOllamaModel_test_ok _ _ _ _ first rest huo hlist]
        have habs2 : st2.ollamaModel ∉ first :: rest := by
          rw [hmodel]; exact habs
        simp [habs2]
      | httpError status statusText => simp [FetchOutcome.isSuccess] at hgen
      | networkError msg => simp [FetchOutcome.isSuccess] at hgen
    | false =>
      rw [initializeOllamaModel_test_fails _ _ _ _ first rest huo hlist hgen]
      simp [hlist]
  cases url with
  | none => exact step _ rfl rfl
  | some u => by_cases hu : u.isEmpty <;> simp only [hu, reduceIte] <;> exact step _ rfl rfl

/-- Witness for C2: the spec's example scenario — configured model
`"nonexistent-model"`, installed models `["llama3.2", "mistral"]` — yields
active model `"llama3.2"` after the switch. -/
theorem switchToOllama_absent_model_substituted_witness :
    (switchToOllama ⟨none, false, "nonexistent-model", "http://localhost:11434"⟩
        none none (.success ⟨some [⟨"llama3.2"⟩, ⟨"mistral"⟩]⟩)
        (.success ⟨"Hi", true⟩)
        (.success ⟨some [⟨"llama3.2"⟩, ⟨"mistral"⟩]⟩)).1.ollamaModel = "llama3.2" :=
  switchToOllama_absent_model_substituted
    ⟨none, false, "nonexistent-model", "http://localhost:11434"⟩ none
    (.success ⟨some [⟨"llama3.2"⟩, ⟨"mistral"⟩]⟩) (.success ⟨"Hi", true⟩)
    "llama3.2" ["mistral"] rfl (by decide)

/-- `generateSolution` never assigns a field: the post-call state is the
input state. -/
theorem generateSolution_state (st : LLMHelper) (info : String) (now : Nat)
    (gemini : Except String String) :
    (generateSolution st info now gemini).2.1 = st := by
  obtain ⟨model, uo, om, ou⟩ := st
  cases model <;> cases gemini <;> rfl

/-- `extractProblemFromImages` never assigns a field. -/
theorem extractProblemFromImages_state (st : LLMHelper) (paths : List String)
    (now : Nat) (gemini : Except String String) :
    (extractProblemFromImages st paths now gemini).2.1 = st := by
  obtain ⟨model, uo, om, ou⟩ := st
  cases model <;> cases gemini <;> rfl

/-- `analyzeAudioFile` never assigns a field. -/
theorem analyzeAudioFile_state (st : LLMHelper) (audioPath : String)
    (now : Nat) (gemini : Except String String) :
    (analyzeAudioFile st audioPath now gemini).2.1 = st := by
  obtain ⟨model, uo, om, ou⟩ := st
  cases model <;> cases gemini <;> rfl

/-- `analyzeAudioFromBase64` never assigns a field. -/
theorem analyzeAudioFromBase64_state (st : LLMHelper) (dat mt : String)
    (now : Nat) (gemini : Except String String) :
    (analyzeAudioFromBase64 st dat mt now gemini).2.1 = st := by
  obtain ⟨model, uo, om, ou⟩ := st
  cases model <;> cases gemini <;> rfl

/-- `chatWithGemini` never assigns a field. -/
theorem chatWithGemini_state (st : LLMHelper) (message : String)
    (gen : FetchOutcome OllamaResponse) (gemini : Except String String) :
    (chatWithGemini st message gen gemini).2.1 = st := by
  obtain ⟨model, uo, om, ou⟩ := st
  cases uo <;> cases model <;> cases gemini <;> cases gen <;> rfl

/-- `chat` never assigns a field. -/
theorem chat_state (st : LLMHelper) (message : String)
    (gen : FetchOutcome OllamaResponse) (gemini : Except String String) :
    (chat st message gen gemini).2.1 = st :=
  chatWithGemini_state st message gen gemini

/-- `testConnection` never assigns a field. -/
theorem testConnection_state (st : LLMHelper) (tags : FetchOutcome OllamaTags)
    (gen : FetchOutcome OllamaResponse) (gemini : Except String String) :
    (testConnection st tags gen gemini).2.1 = st := by
  obtain ⟨model, uo, om, ou⟩ := st
  cases uo with
  | true => cases tags <;> cases gen <;> rfl
  | false =>
    cases model with
    | none => rfl
    | some g =>
      cases gemini with
      | ok text => by_cases h : text.isEmpty <;> simp [testConnection, h]
      | error msg => rfl

/-- `getOllamaModels` never assigns a field. -/
theorem getOllamaModels_state (st : LLMHelper) (tags : FetchOutcome OllamaTags) :
    (getOllamaModels st tags).2.1 = st := by
  obtain ⟨model, uo, om, ou⟩ := st
  cases uo <;> cases tags <;> rfl

/-- Claim C9: whatever the backends answer, every generation, chat, listing,
query or test operation leaves the provider-mode field `useOllama` unchanged;
only the constructor and the two switch operations ever write it. -/
theorem provider_mode_mutated_only_by_switches (st : LLMHelper)
    (info message audioPath dat mt : String) (paths : List String) (now : Nat)
    (gemini : Except String String) (tags : FetchOutcome OllamaTags)
    (gen : FetchOutcome OllamaResponse) :
    ((generateSolution st info now gemini).2.1.useOllama = st.useOllama)
    ∧ ((extractProblemFromImages st paths now gemini).2.1.useOllama = st.useOllama)
    ∧ ((analyzeAudioFile st audioPath now gemini).2.1.useOllama = st.useOllama)
    ∧ ((analyzeAudioFromBase64 st dat mt now gemini).2.1.useOllama = st.useOllama)
    ∧ ((chatWithGemini st message gen gemini).2.1.useOllama = st.useOllama)
    ∧ ((chat st message gen gemini).2.1.useOllama = st.useOllama)
    ∧ ((testConnection st tags gen gemini).2.1.useOllama = st.useOllama)
    ∧ ((getOllamaModels st tags).2.1.useOllama = st.useOllama)
    ∧ ((isUsingOllama st).2.useOllama = st.useOllama)
    ∧ ((getCurrentProvider st).2.useOllama = st.useOllama)
    ∧ ((getCurrentModel st).2.useOllama = st.useOllama) :=
  ⟨by rw [generateSolution_state],
   by rw [extractProblemFromImages_state],
   by rw [analyzeAudioFile_state],
   by rw [analyzeAudioFromBase64_state],
   by rw [chatWithGemini_state],
   by rw [chat_state],
   by rw [testConnection_state],
   by rw [getOllamaModels_state],
   rfl, rfl, rfl⟩

/-- Claim C3: when the test call issued after local-model auto-selection
raises, the gateway performs exactly one further `/api/tags` fetch and one
substitution from that freshly fetched list — the request trace is exactly
GET, POST, GET; when the test call succeeds the trace is exactly GET, POST
(no second fetch, no retry of the generate call).  Failures of other
operations are surfaced untouched: in local mode `chatWithGemini` returns
exactly the error `callOllama` produced, after exactly one POST. -/
theorem initializeOllamaModel_single_fallback (st : LLMHelper)
    (tags1 : FetchOutcome OllamaTags) (gen : FetchOutcome OllamaResponse)
    (tags2 : FetchOutcome OllamaTags) (first : String) (rest : List String)
    (huo : st.useOllama = true) (hlist : tagsModelNames tags1 = first :: rest) :
    (gen.isSuccess = false →
      (initializeOllamaModel st tags1 gen tags2).2
        = [NetCall.getTags st.ollamaUrl,
           NetCall.postGenerate st.ollamaUrl
             (if st.ollamaModel ∈ first :: rest then st.ollamaModel else first)
             "Hello",
           NetCall.getTags st.ollamaUrl]
      ∧ ∀ m ms, tagsModelNames tags2 = m :: ms →
          (initializeOllamaModel st tags1 gen tags2).1.ollamaModel = m)
    ∧ (gen.isSuccess = true →
      (initializeOllamaModel st tags1 gen tags2).2
        = [NetCall.getTags st.ollamaUrl,
           NetCall.postGenerate st.ollamaUrl
             (if st.ollamaModel ∈ first :: rest then st.ollamaModel else first)
             "Hello"])
    ∧ (∀ (message : String) (genOut : FetchOutcome OllamaResponse)
         (gemini : Except String String) (msg : String),
        (callOllama st message genOut).1 = .error msg →
          (chatWithGemini st message genOut gemini).1 = .error msg
          ∧ (chatWithGemini st message genOut gemini).2.2
              = [NetCall.postGenerate st.ollamaUrl st.ollamaModel message]) := by
  refine ⟨?_, ?_, ?_⟩
  · intro hfail
    rw [initializeOllamaModel_test_fails st tags1 gen tags2 first rest huo hlist hfail]
    refine ⟨rfl, ?_⟩
    intro m ms hm
    simp [hm]
  · intro hok
    cases gen with
    | success d =>
      rw [initializeOllamaModel_test_ok st tags1 d tags2 first rest huo hlist]
    | httpError status statusText => simp [FetchOutcome.isSuccess] at hok
    | networkError msg => simp [FetchOutcome.isSuccess] at hok
  · intro message genOut gemini msg herr
    constructor <;> simp [chatWithGemini, huo, herr, callOllama] <;>
      cases genOut <;> simp [callOllama] at herr ⊢ <;> simp [herr]

/-- Witness for C3: first fetch lists `["llama3.2"]`, the test call raises,
the fresh fetch lists `["mistral"]`: the trace is GET, POST, GET and the
final model is `"mistral"`. -/
theorem initializeOllamaModel_single_fallback_witness :
    (initializeOllamaModel ⟨none, true, "llama3.2", "http://localhost:11434"⟩
        (.success ⟨some [⟨"llama3.2"⟩]⟩) (.networkError "boom")
        (.success ⟨some [⟨"mistral"⟩]⟩)).2
      = [NetCall.getTags "http://localhost:11434",
         NetCall.postGenerate "http://localhost:11434" "llama3.2" "Hello",
         NetCall.getTags "http://localhost:11434"]
    ∧ (initializeOllamaModel ⟨none, true, "llama3.2", "http://localhost:11434"⟩
        (.success ⟨some [⟨"llama3.2"⟩]⟩) (.networkError "boom")
        (.success ⟨some [⟨"mistral"⟩]⟩)).1.ollamaModel = "mistral" := by
  have h := initializeOllamaModel_single_fallback
    ⟨none, true, "llama3.2", "http://localhost:11434"⟩
    (.success ⟨some [⟨"llama3.2"⟩]⟩) (.networkError "boom")
    (.success ⟨some [⟨"mistral"⟩]⟩) "llama3.2" [] rfl rfl
  refine ⟨?_, (h.1 rfl).2 "mistral" [] rfl⟩
  have h2 := (h.1 rfl).1
  simpa using h2

/-- Counterexample to claim C6: a successful generation call can return an
empty `text` — the code forwards whatever the backend answered without any
non-emptiness check. -/
theorem generateSolution_empty_text :
    (generateSolution
        ⟨some "gemini-2.0-flash", false, "llama3.2", "http://localhost:11434"⟩
        "question" 5 (.ok "")).1 = .ok ⟨"", 5⟩
      ∧ ("" : String).length = 0 :=
  ⟨rfl, rfl⟩

/-- Claim C6 as amended: a successful generation call (text, image set or
audio) returns exactly the backend's response text stamped with the clock at
the call, so across sequential calls with a non-decreasing clock the
timestamps are non-decreasing, and the text is non-empty whenever the
backend's response text is non-empty. -/
theorem generation_result_passthrough_monotone (st : LLMHelper)
    (g info audioPath : String) (paths : List String) (now1 now2 : Nat)
    (t1 t2 : String) (hmodel : st.model = some g) (hclock : now1 ≤ now2)
    (h1 : t1 ≠ "") (h2 : t2 ≠ "") :
    ∃ r1 r2 : GenerationResult,
      (generateSolution st info now1 (.ok t1)).1 = .ok r1
      ∧ (generateSolution (generateSolution st info now1 (.ok t1)).2.1
          info now2 (.ok t2)).1 = .ok r2
      ∧ (extractProblemFromImages st paths now1 (.ok t1)).1 = .ok r1
      ∧ (analyzeAudioFile st audioPath now1 (.ok t1)).1 = .ok r1
      ∧ r1.text ≠ "" ∧ r2.text ≠ "" ∧ r1.timestamp ≤ r2.timestamp := by
  refine ⟨⟨t1, now1⟩, ⟨t2, now2⟩, ?_, ?_, ?_, ?_, h1, h2, hclock⟩
  · simp [generateSolution, hmodel]
  · rw [generateSolution_state]
    simp [generateSolution, hmodel]
  · simp [extractProblemFromImages, hmodel]
  · simp [analyzeAudioFile, hmodel]

/-- Witness for the amended C6: two sequential cloud-mode calls at times 5
and 6 with non-empty backend answers. -/
theorem generation_result_passthrough_monotone_witness :
    ∃ r1 r2 : GenerationResult,
      (generateSolution
          ⟨some "gemini-2.0-flash", false, "llama3.2", "http://localhost:11434"⟩
          "question" 5 (.ok "Answer one")).1 = .ok r1
      ∧ (generateSolution
          (generateSolution
            ⟨some "gemini-2.0-flash", false, "llama3.2", "http://localhost:11434"⟩
            "question" 5 (.ok "Answer one")).2.1
          "question" 6 (.ok "Answer two")).1 = .ok r2
      ∧ (extractProblemFromImages
          ⟨some "gemini-2.0-flash", false, "llama3.2", "http://localhost:11434"⟩
          ["shot.png"] 5 (.ok "Answer one")).1 = .ok r1
      ∧ (analyzeAudioFile
          ⟨some "gemini-2.0-flash", false, "llama3.2", "http://localhost:11434"⟩
          "clip.mp3" 5 (.ok "Answer one")).1 = .ok r1
      ∧ r1.text ≠ "" ∧ r2.text ≠ "" ∧ r1.timestamp ≤ r2.timestamp :=
  generation_result_passthrough_monotone
    ⟨some "gemini-2.0-flash", false, "llama3.2", "http://localhost:11434"⟩
    "gemini-2.0-flash" "question" "clip.mp3" ["shot.png"] 5 6
    "Answer one" "Answer two" rfl (by decide) (by decide) (by decide)

/-- Counterexample to claim C7: after switching a cloud-constructed gateway
to local mode, a multimodal call does not fail with any UnsupportedOperation
error — it silently succeeds through the still-present Gemini handle. -/
theorem extractProblemFromImages_no_unsupported_check :
    (switchToOllama
        ⟨some "gemini-2.0-flash", false, "llama3.2", "http://localhost:11434"⟩
        (some "llama3.2") none (.networkError "down") (.networkError "down")
        (.networkError "down"))
      = (⟨some "gemini-2.0-flash", true, "llama3.2", "http://localhost:11434"⟩, [])
    ∧ (extractProblemFromImages
        ⟨some "gemini-2.0-flash", true, "llama3.2", "http://localhost:11434"⟩
        ["shot.png"] 7 (.ok "The answer")).1 = .ok ⟨"The answer", 7⟩ :=
  ⟨rfl, rfl⟩

/-- Claim C7 as amended: multimodal calls always dispatch to the Gemini
handle with no provider-mode check and never contact the local server; with
no handle configured they fail with the JS null-dereference `TypeError`
(which does not identify the active backend), and with a handle present they
succeed whenever the cloud call does, regardless of mode. -/
theorem multimodal_always_gemini (st : LLMHelper) (paths : List String)
    (audioPath : String) (now : Nat) (gemini : Except String String) :
    (st.model = none →
      (extractProblemFromImages st paths now gemini).1 = .error nullModelError
      ∧ (analyzeAudioFile st audioPath now gemini).1 = .error nullModelError)
    ∧ (∀ g t, st.model = some g → gemini = .ok t →
      (extractProblemFromImages st paths now gemini).1 = .ok ⟨t, now⟩
      ∧ (analyzeAudioFile st audioPath now gemini).1 = .ok ⟨t, now⟩)
    ∧ (∀ c ∈ (extractProblemFromImages st paths now gemini).2.2,
        c = NetCall.geminiGenerate)
    ∧ (∀ c ∈ (analyzeAudioFile st audioPath now gemini).2.2,
        c = NetCall.geminiGenerate) := by
  refine ⟨?_, ?_, ?_, ?_⟩
  · intro hnone
    exact ⟨by simp [extractProblemFromImages, hnone],
           by simp [analyzeAudioFile, hnone]⟩
  · intro g t hsome hok
    exact ⟨by simp [extractProblemFromImages, hsome, hok],
           by simp [analyzeAudioFile, hsome, hok]⟩
  · obtain ⟨model, uo, om, ou⟩ := st
    cases model <;> cases gemini <;> simp [extractProblemFromImages]
  · obtain ⟨model, uo, om, ou⟩ := st
    cases model <;> cases gemini <;> simp [analyzeAudioFile]

/-- Witness for the amended C7: a local-mode gateway with no Gemini handle
gets the null-dereference error from a multimodal call. -/
theorem multimodal_always_gemini_witness :
    (extractProblemFromImages ⟨none, true, "llama3.2", "http://localhost:11434"⟩
        ["shot.png"] 3 (.ok "x")).1 = .error nullModelError :=
  ((multimodal_always_gemini ⟨none, true, "llama3.2", "http://localhost:11434"⟩
      ["shot.png"] "clip.mp3" 3 (.ok "x")).1 rfl).1

end LLM
